import Mathlib

/-
Verification of python-couchbase-helper against its specification.
The Python modules options.py, n1ql.py, retry.py, session.py and timeout.py
are shallowly embedded as executable Lean definitions; the theorems at the
end of the file settle the specification claims.
-/

set_option maxRecDepth 4000

namespace PyCouch

/-- Errors raised by the embedded Python code. -/
inductive PyErr where
  | valueError
  | typeError
  | attributeError (msg : String)
  | bucketNotSet
  | scopeNotSet
  | clusterNotSet
  | connectTimeout
deriving DecidableEq, Repr

/-- Python values handled by the helper methods: ints, strings and None. -/
inductive PyVal where
  | pint (n : Int)
  | pstr (s : String)
  | pnone
deriving DecidableEq, Repr

/-- Whitespace characters recognised by Python str.strip and the regex class \s. -/
def isPySpace (c : Char) : Bool :=
  c == ' ' || c == '\t' || c == '\n' || c == '\r' || c == '\x0b' || c == '\x0c'

/-- Drop leading whitespace characters. -/
def dropWs : List Char → List Char
  | [] => []
  | c :: l => if isPySpace c then dropWs l else c :: l

/-- Python str.strip on a character list: drop whitespace at both ends. -/
def stripChars (l : List Char) : List Char :=
  (dropWs ((dropWs l).reverse)).reverse

/-- Python str.strip. -/
def pyStrip (s : String) : String := String.mk (stripChars s.data)

/-- Decimal digit character for a digit value. -/
def digitCh (m : Nat) : Char := Char.ofNat (48 + m % 10)

/-- Decimal digits of a natural number, with explicit fuel so that the
definition reduces by evaluation; fuel n+1 is always sufficient for n. -/
def natCharsAux : Nat → Nat → List Char
  | 0, _ => []
  | fuel + 1, n =>
      if n < 10 then [digitCh n] else natCharsAux fuel (n / 10) ++ [digitCh (n % 10)]

/-- Decimal representation of a natural number as characters. -/
def natChars (n : Nat) : List Char := natCharsAux (n + 1) n

/-- Rendering of a Python int inside an f-string. -/
def intStr (n : Int) : String :=
  if n < 0 then String.mk ('-' :: natChars n.natAbs) else String.mk (natChars n.natAbs)

/-- Rendering of a Python non-negative int inside an f-string. -/
def natStr (n : Nat) : String := String.mk (natChars n)

/-- Python str.upper (ASCII fragment, which covers every use below). -/
def pyUpper (s : String) : String := String.mk (s.data.map Char.toUpper)

/-- Python sep.join. -/
def joinWith (sep : String) : List String → String
  | [] => ""
  | [x] => x
  | x :: xs => x ++ sep ++ joinWith sep xs

/-- Does the first list occur at the head of the second one. -/
def leadsList : List Char → List Char → Bool
  | [], _ => true
  | _ :: _, [] => false
  | a :: as, b :: bs => a == b && leadsList as bs

/-- Does the needle occur anywhere inside the haystack. -/
def subList (needle : List Char) : List Char → Bool
  | [] => needle.isEmpty
  | c :: rest => leadsList needle (c :: rest) || subList needle rest

/-- Substring containment on strings. -/
def strHas (hay needle : String) : Bool := subList needle.data hay.data

/-- All characters are decimal digits. -/
def allDigits (l : List Char) : Bool := l.all Char.isDigit

/-- Value of a run of decimal digits. -/
def digitsVal (l : List Char) : Nat := l.foldl (fun a c => a * 10 + (c.toNat - 48)) 0

/-- Python int(str): optional surrounding whitespace, optional sign, then a
nonempty run of digits; anything else raises ValueError (modelled as none). -/
def parseIntStr (s : String) : Option Int :=
  match stripChars s.data with
  | '+' :: rest =>
      if rest ≠ [] ∧ allDigits rest then some (Int.ofNat (digitsVal rest)) else none
  | '-' :: rest =>
      if rest ≠ [] ∧ allDigits rest then some (-(Int.ofNat (digitsVal rest))) else none
  | l => if l ≠ [] ∧ allDigits l then some (Int.ofNat (digitsVal l)) else none

/-- Python int() applied to one of our values: TypeError for None, ValueError
for a string that does not parse as an integer. -/
def pyInt : PyVal → Except PyErr Int
  | PyVal.pint n => Except.ok n
  | PyVal.pstr s =>
      match parseIntStr s with
      | some n => Except.ok n
      | none => Except.error PyErr.valueError
  | PyVal.pnone => Except.error PyErr.typeError

/-- Is an Except value a success. -/
def isOkE {ε α : Type} : Except ε α → Bool
  | Except.ok _ => true
  | Except.error _ => false

/-- timeout.py: container for the three timeout values with the defaults
connection=10, kv=5, query=30; read-only after construction. -/
structure Timeout where
  connection : Int := 10
  kv : Int := 5
  query : Int := 30
deriving DecidableEq, Repr

/-- datetime.timedelta restricted to whole seconds, which is the only way the
code constructs one. -/
structure Timedelta where
  seconds : Int
deriving DecidableEq, Repr

/-- An options dictionary passed by the caller of build_opts: the timeout key
is modelled explicitly, every other key is carried opaquely. -/
structure Opts where
  timeout : Option Timedelta := none
  rest : List (String × PyVal) := []
deriving DecidableEq, Repr

/-- The expiry argument of build_opts: a Python int or a timedelta. -/
inductive Expiry where
  | int (n : Int)
  | td (t : Timedelta)
deriving DecidableEq, Repr

/-- The options record produced by base_options(**opts) in build_opts; the
chosen constructor is identified by the operation kind. -/
structure OptionsRecord where
  kind : String
  timeout : Option Timedelta
  expiry : Option Timedelta := none
  rest : List (String × PyVal) := []
deriving DecidableEq, Repr

/-- The operation kinds for which build_opts has an if/elif branch. -/
def supportedKinds : List String :=
  ["insert", "insert_multi", "upsert", "upsert_multi", "get", "get_multi",
   "query", "remove", "remove_multi", "view"]

/-- options.py build_opts (identical dispatch to helper.py _build_opts).
Returns the outcome together with the caller's options dictionary as it is
after the call: the dictionary is aliased, so the in-place write of the
default timeout is visible to the caller; when the caller passes no
dictionary a fresh one is used and the caller sees nothing. -/
def build_opts (type_ : String) (opts0 : Option Opts) (expiry : Option Expiry)
    (timeout : Timeout) : Except PyErr OptionsRecord × Option Opts :=
  let opts := opts0.getD {}
  -- the if/elif dispatch: each recognised branch picks an options
  -- constructor; only the query branch overrides the kv default timeout
  let dispatched : Option Timedelta :=
    if type_ = "insert" then some (Timedelta.mk timeout.kv)
    else if type_ = "insert_multi" then some (Timedelta.mk timeout.kv)
    else if type_ = "upsert" then some (Timedelta.mk timeout.kv)
    else if type_ = "upsert_multi" then some (Timedelta.mk timeout.kv)
    else if type_ = "get" then some (Timedelta.mk timeout.kv)
    else if type_ = "get_multi" then some (Timedelta.mk timeout.kv)
    else if type_ = "query" then some (Timedelta.mk timeout.query)
    else if type_ = "remove" then some (Timedelta.mk timeout.kv)
    else if type_ = "remove_multi" then some (Timedelta.mk timeout.kv)
    else if type_ = "view" then some (Timedelta.mk timeout.kv)
    else none
  match dispatched with
  | none =>
      (Except.error (PyErr.attributeError ("invalid attribute value " ++ type_)), opts0)
  | some default_timeout =>
      let opts := if opts.timeout = none then {opts with timeout := some default_timeout} else opts
      let ret : OptionsRecord := {kind := type_, timeout := opts.timeout, rest := opts.rest}
      -- the `if ret is None: ret = {}` line of the source is dead: the
      -- options constructor never returns None
      let ret :=
        match expiry with
        | some (Expiry.int n) => {ret with expiry := some (Timedelta.mk n)}
        | _ => ret
      (Except.ok ret, if opts0.isSome then some opts else none)

/-- The default timeout build_opts injects for a given kind. -/
def defaultTd (type_ : String) (timeout : Timeout) : Timedelta :=
  if type_ = "query" then Timedelta.mk timeout.query else Timedelta.mk timeout.kv

namespace N1ql

/-- The session as the query builder sees it once connected: the names of the
currently selected bucket, scope and collection (each handle's name equals
the name assigned through the corresponding property setter). -/
structure SessionSt where
  bucket : String
  scope : String
  collection : String
deriving DecidableEq, Repr

/-- The _session_reset dictionary: its only possible keys are the literal
strings bucket, scope and collection, modelled as three optional entries. -/
structure Overrides where
  bucket : Option String := none
  scope : Option String := none
  collection : Option String := none
deriving DecidableEq, Repr

/-- A where condition as stored: join type, rendered key, bound value. -/
abbrev Cond : Type := String × String × PyVal

/-- The query runtime variables of an N1ql instance. -/
structure Builder where
  columns : List String
  conditions : List Cond
  distinct : Bool
  limit : Option Int
  offset : Option Int
  sessionReset : Overrides
deriving DecidableEq, Repr

/-- The query runtime variables as set in N1ql.__init__ (and by _reset). -/
def Builder.init : Builder :=
  { columns := ["*"], conditions := [], distinct := false,
    limit := none, offset := none, sessionReset := {} }

/-- Word characters of the regex class \w (ASCII fragment). -/
def isWordChar (c : Char) : Bool := c.isAlphanum || c == '_'

/-- N1ql._clean_key: re.sub of the class \W by the empty string. -/
def cleanKey (s : String) : String := String.mk (s.data.filter isWordChar)

/-- N1ql._has_operator: does re.findall of
(\s|<|>|!|=|is null|is not null) produce a match. -/
def hasOperator (s : String) : Bool :=
  s.data.any (fun c => isPySpace c || c == '<' || c == '>' || c == '!' || c == '=')
    || strHas s "is null" || strHas s "is not null"

/-- The reserved word tuple of N1ql._enclose_reserved_word. -/
def reservedWords : List String :=
  ["_INDEX_CONDITION", "_INDEX_KEY", "ADVISE", "ALL", "ALTER", "ANALYZE",
   "AND", "ANY", "ARRAY", "AS", "ASC", "AT", "BEGIN", "BETWEEN", "BINARY",
   "BOOLEAN", "BREAK", "BUCKET", "BUILD", "BY", "CACHE", "CALL", "CASE",
   "CAST", "CLUSTER", "COLLATE", "COLLECTION", "COMMIT", "COMMITTED",
   "CONNECT", "CONTINUE", "CORRELATED", "COVER", "CREATE", "CURRENT",
   "CYCLE", "DATABASE", "DATASET", "DATASTORE", "DECLARE", "DECREMENT",
   "DEFAULT", "DELETE", "DERIVED", "DESC", "DESCRIBE", "DISTINCT", "DO",
   "DROP", "EACH", "ELEMENT", "ELSE", "END", "ESCAPE", "EVERY", "EXCEPT",
   "EXCLUDE", "EXECUTE", "EXISTS", "EXPLAIN", "FALSE", "FETCH", "FILTER",
   "FIRST", "FLATTEN", "FLATTEN_KEYS", "FLUSH", "FOLLOWING", "FOR", "FORCE",
   "FROM", "FTS", "FUNCTION", "GOLANG", "GRANT", "GROUP", "GROUPS", "GSI",
   "HASH", "HAVING", "IF", "IGNORE", "ILIKE", "IN", "INCLUDE", "INCREMENT",
   "INDEX", "INFER", "INLINE", "INNER", "INSERT", "INTERSECT", "INTO", "IS",
   "ISOLATION", "JAVASCRIPT", "JOIN", "KEY", "KEYS", "KEYSPACE", "KNOWN",
   "LANGUAGE", "LAST", "LATERAL", "LEFT", "LET", "LETTING", "LEVEL", "LIKE",
   "LIMIT", "LSM", "MAP", "MAPPING", "MATCHED", "MATERIALIZED", "MAXVALUE",
   "MERGE", "MINVALUE", "MISSING", "NAMESPACE", "NEST", "NEXT", "NEXTVAL",
   "NL", "NO", "NOT", "NTH_VALUE", "NULL", "NULLS", "NUMBER", "OBJECT",
   "OFFSET", "ON", "OPTION", "OPTIONS", "OR", "ORDER", "OTHERS", "OUTER",
   "OVER", "PARSE", "PARTITION", "PASSWORD", "PATH", "POOL", "PRECEDING",
   "PREPARE", "PREV", "PREVIOUS", "PREVVAL", "PRIMARY", "PRIVATE",
   "PRIVILEGE", "PROBE", "PROCEDURE", "PUBLIC", "RANGE", "RAW", "READ",
   "REALM", "RECURSIVE", "REDUCE", "RENAME", "REPLACE", "RESPECT",
   "RESTART", "RESTRICT", "RETURN", "RETURNING", "REVOKE", "RIGHT", "ROLE",
   "ROLLBACK", "ROW", "ROWS", "SATISFIES", "SAVEPOINT", "SCHEMA", "SCOPE",
   "SELECT", "SELF", "SEQUENCE", "SET", "SHOW", "SOME", "START",
   "STATISTICS", "STRING", "SYSTEM", "THEN", "TIES", "TO", "TRAN",
   "TRANSACTION", "TRIGGER", "TRUE", "TRUNCATE", "UNBOUNDED", "UNDER",
   "UNION", "UNIQUE", "UNKNOWN", "UNNEST", "UNSET", "UPDATE", "UPSERT",
   "USE", "USER", "USERS", "USING", "VALIDATE", "VALUE", "VALUED", "VALUES",
   "VECTOR", "VIA", "VIEW", "WHEN", "WHERE", "WHILE", "WINDOW", "WITH",
   "WITHIN", "WORK", "XOR"]

/-- N1ql._enclose_reserved_word: back-quote a word whose upper-casing is in
the reserved tuple, then back-quote (again) a word containing a dot. -/
def encloseReservedWord (word : String) : String :=
  let word := if reservedWords.contains (pyUpper word) then "`" ++ word ++ "`" else word
  let word := if word.data.contains '.' then "`" ++ word ++ "`" else word
  word

/-- The processed key stored by N1ql._where: the cleaned, possibly enclosed,
column followed by the computed operator string. -/
def processedKey (key : String) (value : PyVal) : String :=
  let column := encloseReservedWord (cleanKey key)
  -- operator = None; if value is None and not has_operator: operator = " IS NULL"
  let operator1 : Option String :=
    if value = PyVal.pnone ∧ hasOperator key = false then some " IS NULL" else none
  -- if not has_operator or not operator: operator = " ="
  let operator : String :=
    if hasOperator key = false ∨ operator1 = none then " =" else operator1.getD " ="
  column ++ operator

/-- N1ql._where: append the (type, processed key, value) tuple. -/
def whereCond (b : Builder) (type_ : String) (key : String) (value : PyVal) : Builder :=
  {b with conditions := b.conditions ++ [(type_, processedKey key value, value)]}

/-- N1ql.where. -/
def where_ (b : Builder) (key : String) (value : PyVal) : Builder :=
  whereCond b "AND" key value

/-- N1ql.or_where. -/
def or_where (b : Builder) (key : String) (value : PyVal) : Builder :=
  whereCond b "OR" key value

/-- N1ql.orwhere, an alias for or_where. -/
def orwhere (b : Builder) (key : String) (value : PyVal) : Builder :=
  or_where b key value

/-- N1ql.from_: for each argument that is given and differs from the current
session name, store the current name in _session_reset and assign the new
name through the session setter; the three arguments are handled in order. -/
def from_ (b : Builder) (s : SessionSt)
    (bucket scope collection : Option String) : Builder × SessionSt :=
  let (b, s) :=
    match bucket with
    | some v =>
        if v ≠ s.bucket then
          ({b with sessionReset := {b.sessionReset with bucket := some s.bucket}},
           {s with bucket := v})
        else (b, s)
    | none => (b, s)
  let (b, s) :=
    match scope with
    | some v =>
        if v ≠ s.scope then
          ({b with sessionReset := {b.sessionReset with scope := some s.scope}},
           {s with scope := v})
        else (b, s)
    | none => (b, s)
  let (b, s) :=
    match collection with
    | some v =>
        if v ≠ s.collection then
          ({b with sessionReset := {b.sessionReset with collection := some s.collection}},
           {s with collection := v})
        else (b, s)
    | none => (b, s)
  (b, s)

/-- N1ql.limit: int(limit), swallowing only ValueError. -/
def limit (b : Builder) (v : PyVal) : Except PyErr Builder :=
  match pyInt v with
  | Except.ok n => Except.ok {b with limit := some n}
  | Except.error PyErr.valueError => Except.ok b
  | Except.error e => Except.error e

/-- N1ql.offset: int(offset), swallowing only ValueError. -/
def offset (b : Builder) (v : PyVal) : Except PyErr Builder :=
  match pyInt v with
  | Except.ok n => Except.ok {b with offset := some n}
  | Except.error PyErr.valueError => Except.ok b
  | Except.error e => Except.error e

/-- N1ql.skip, an alias for offset. -/
def skip (b : Builder) (v : PyVal) : Except PyErr Builder :=
  offset b v

/-- The loop of N1ql.rows generating the where expression: each pass appends
the stripped part followed by one space; the join keyword is emitted only
when the accumulated string is already nonempty. -/
def genWhereParts (pfx : String) : List Cond → Nat → String → String
  | [], _, acc => acc
  | (t, k, _) :: rest, idx, acc =>
      let part :=
        pyStrip ((if acc.length ≠ 0 then pyUpper t else "") ++ " " ++ pfx ++ k ++ " $" ++ natStr idx)
      genWhereParts pfx rest (idx + 1) (acc ++ part ++ " ")

/-- The where expression of N1ql.rows (empty when there are no conditions). -/
def genWhere (pfx : String) (conds : List Cond) : String :=
  if conds.isEmpty then "" else "WHERE " ++ genWhereParts pfx conds 1 ""

/-- Python s[0:1]. -/
def take1 (s : String) : String := String.mk (s.data.take 1)

/-- The statement and positional parameters compiled by N1ql.rows. -/
def compile (b : Builder) (s : SessionSt) : String × List PyVal :=
  let fromExpr := encloseReservedWord s.bucket
  let fromExpr :=
    if s.scope ≠ "_default" ∨ s.collection ≠ "_default" then
      fromExpr ++ "." ++ encloseReservedWord s.scope ++ "." ++ encloseReservedWord s.collection
    else fromExpr
  let ident := take1 s.bucket
  let pfx := ident ++ "."
  let columns :=
    joinWith ", "
      (b.columns.map (fun col => (if col ≠ "*" then pfx else "") ++ encloseReservedWord col))
  let whereStr := genWhere pfx b.conditions
  let params := b.conditions.map (fun c => c.2.2)
  let limitStr := match b.limit with | some n => "LIMIT " ++ intStr n | none => ""
  let offsetStr := match b.offset with | some n => "OFFSET " ++ intStr n | none => ""
  let stmt :=
    pyStrip ("SELECT" ++ (if b.distinct then " DISTINCT" else "") ++ " " ++ columns
      ++ " FROM " ++ fromExpr ++ " " ++ ident ++ " " ++ whereStr ++ " " ++ limitStr
      ++ " " ++ offsetStr)
  (stmt, params)

/-- N1ql._reset: restore the runtime variables, reapply every name stored in
_session_reset through the matching session setter and clear the store. -/
def reset (b : Builder) (s : SessionSt) : Builder × SessionSt :=
  let s1 : SessionSt :=
    { bucket := (b.sessionReset.bucket).getD s.bucket,
      scope := (b.sessionReset.scope).getD s.scope,
      collection := (b.sessionReset.collection).getD s.collection }
  (Builder.init, s1)

/-- N1ql.rows: compile the statement, run it through the session (the network
round trip is an oracle returning rows or an error; _execute swallows every
exception into None, on which .rows() raises the AttributeError caught here),
and always reset in the finally block, whatever the outcome was. -/
def rows {α : Type} (b : Builder) (s : SessionSt)
    (exec : String → List PyVal → Except PyErr α) :
    Except PyErr (Option α) × Builder × SessionSt :=
  let c := compile b s
  let res : Except PyErr (Option α) :=
    match exec c.1 c.2 with
    | Except.ok r => Except.ok (some r)
    | Except.error (PyErr.attributeError _) => Except.ok none
    | Except.error e => Except.error e
  let r := reset b s
  (res, r.1, r.2)

/-- A chain of where / or_where calls applied in order (true means or_where). -/
def applyChain (calls : List (Bool × String × PyVal)) (b : Builder) : Builder :=
  calls.foldl
    (fun b c => if c.1 then or_where b c.2.1 c.2.2 else where_ b c.2.1 c.2.2) b

/-- Written from the specification: the rendering of every condition after
the first one, join keyword included, each followed by one space. -/
def specRestWhere (pfx : String) : List Cond → Nat → String
  | [], _ => ""
  | (t, k, _) :: rest, idx =>
      t ++ " " ++ pfx ++ k ++ " $" ++ natStr idx ++ " " ++ specRestWhere pfx rest (idx + 1)

/-- Written from the specification: the WHERE clause joins the conditions in
order with their join keywords, omitting the keyword of the first condition,
and numbers the positional placeholders from 1. -/
def specWhere (pfx : String) (conds : List Cond) : String :=
  match conds with
  | [] => ""
  | (_, k, _) :: rest =>
      "WHERE " ++ pfx ++ k ++ " $" ++ natStr 1 ++ " " ++ specRestWhere pfx rest 2

end N1ql

namespace Retry

/-- The loop body of retry.py's wrapper. The recursion parameter is the
number of loop iterations still to run, so in the iteration that consumes
n + 1 the Python variable attempts_left equals n; k numbers the invocations
of the wrapped operation, whose outcomes are given by the oracle f.
retryable models the exceptions tuple: none means no retryable kinds were
configured; the backoff sleep has no observable effect and is omitted.
Returns the visible outcome (ok none is Python's implicit None return when
the loop body never runs) and the total number of invocations. -/
def retryLoop {ε α : Type} (retryable : Option (ε → Bool)) (f : Nat → Except ε α) :
    Nat → Nat → Except ε (Option α) × Nat
  | 0, k => (Except.ok none, k)
  | n + 1, k =>
      match f k with
      | Except.ok a => (Except.ok (some a), k + 1)
      | Except.error e =>
          -- if exceptions is None or not isinstance(exc, exceptions): raise
          let nonRetryable := match retryable with | none => true | some p => !p e
          if nonRetryable then (Except.error e, k + 1)
          -- if attempts_left == 0: raise
          else if n = 0 then (Except.error e, k + 1)
          else retryLoop retryable f n (k + 1)

/-- retry.py: for attempts_left in reversed(range(attempts)). -/
def retryRun {ε α : Type} (attempts : Nat) (retryable : Option (ε → Bool))
    (f : Nat → Except ε α) : Except ε (Option α) × Nat :=
  retryLoop retryable f attempts 0

end Retry

namespace Session

/-- session.py's Session state: the handles are modelled by the name they
were resolved from (None when never set), which is all connect and the
setters inspect. -/
structure St where
  cluster : Option Unit
  bucketHandle : Option String
  bucketName : Option String
  scopeHandle : Option String
  scopeName : Option String
  collectionHandle : Option String
  collectionName : Option String
  connected : Bool
deriving DecidableEq, Repr

/-- Session.__init__: bucket is optional, scope and collection are strings
defaulting to _default; no handle is resolved yet and the session starts
disconnected. -/
def init (bucket : Option String) (scope : String := "_default")
    (collection : String := "_default") : St :=
  { cluster := none, bucketHandle := none, bucketName := bucket,
    scopeHandle := none, scopeName := some scope,
    collectionHandle := none, collectionName := some collection,
    connected := false }

/-- The bucket setter: self._cluster.bucket(value) raises AttributeError on a
missing cluster, otherwise the handle and name are stored. -/
def setBucket (s : St) (v : String) : Except PyErr St :=
  match s.cluster with
  | none => Except.error (PyErr.attributeError "NoneType has no attribute bucket")
  | some _ => Except.ok {s with bucketHandle := some v, bucketName := some v}

/-- The scope setter: raises BucketNotSet when no bucket handle is set. -/
def setScope (s : St) (v : String) : Except PyErr St :=
  match s.bucketHandle with
  | none => Except.error PyErr.bucketNotSet
  | some _ => Except.ok {s with scopeHandle := some v, scopeName := some v}

/-- The collection setter: raises ScopeNotSet when no scope handle is set. -/
def setCollection (s : St) (v : String) : Except PyErr St :=
  match s.scopeHandle with
  | none => Except.error PyErr.scopeNotSet
  | some _ => Except.ok {s with collectionHandle := some v, collectionName := some v}

/-- Session.connect: create the cluster handle when absent, re-apply the
bucket, scope and collection names through their setters when not None, then
wait until ready (the service readiness is an oracle) and mark connected.
The returned state is the session as left behind, raised error included. -/
def connect (s : St) (waitOk : Bool) : St × Except PyErr Unit :=
  let s := if s.cluster = none then {s with cluster := some ()} else s
  let afterBucket : Except PyErr St :=
    match s.bucketName with
    | some b => setBucket s b
    | none => Except.ok s
  match afterBucket with
  | Except.error e => (s, Except.error e)
  | Except.ok s1 =>
      let afterScope : Except PyErr St :=
        match s1.scopeName with
        | some v => setScope s1 v
        | none => Except.ok s1
      match afterScope with
      | Except.error e => (s1, Except.error e)
      | Except.ok s2 =>
          let afterColl : Except PyErr St :=
            match s2.collectionName with
            | some v => setCollection s2 v
            | none => Except.ok s2
          match afterColl with
          | Except.error e => (s2, Except.error e)
          | Except.ok s3 =>
              if waitOk then ({s3 with connected := true}, Except.ok ())
              else (s3, Except.error PyErr.connectTimeout)

end Session

end PyCouch

open PyCouch

section OptionsClaims

/-- Closed form of build_opts used by the options claims. -/
theorem build_opts_eq (type_ : String) (opts0 : Option Opts) (expiry : Option Expiry)
    (t : Timeout) :
    build_opts type_ opts0 expiry t =
      if type_ ∈ supportedKinds then
        let opts := opts0.getD {}
        let opts1 :=
          if opts.timeout = none then {opts with timeout := some (defaultTd type_ t)} else opts
        let ret0 : OptionsRecord := {kind := type_, timeout := opts1.timeout, rest := opts1.rest}
        let ret :=
          match expiry with
          | some (Expiry.int n) => {ret0 with expiry := some (Timedelta.mk n)}
          | _ => ret0
        (Except.ok ret, if opts0.isSome then some opts1 else none)
      else
        (Except.error (PyErr.attributeError ("invalid attribute value " ++ type_)), opts0) := by
  by_cases h1 : type_ = "insert"
  · subst h1; simp [build_opts, supportedKinds, defaultTd]
  by_cases h2 : type_ = "insert_multi"
  · subst h2; simp [build_opts, supportedKinds, defaultTd]
  by_cases h3 : type_ = "upsert"
  · subst h3; simp [build_opts, supportedKinds, defaultTd]
  by_cases h4 : type_ = "upsert_multi"
  · subst h4; simp [build_opts, supportedKinds, defaultTd]
  by_cases h5 : type_ = "get"
  · subst h5; simp [build_opts, supportedKinds, defaultTd]
  by_cases h6 : type_ = "get_multi"
  · subst h6; simp [build_opts, supportedKinds, defaultTd]
  by_cases h7 : type_ = "query"
  · subst h7; simp [build_opts, supportedKinds, defaultTd]
  by_cases h8 : type_ = "remove"
  · subst h8; simp [build_opts, supportedKinds, defaultTd]
  by_cases h9 : type_ = "remove_multi"
  · subst h9; simp [build_opts, supportedKinds, defaultTd]
  by_cases h10 : type_ = "view"
  · subst h10; simp [build_opts, supportedKinds, defaultTd]
  have hmem : type_ ∉ supportedKinds := by
    simp [supportedKinds, h1, h2, h3, h4, h5, h6, h7, h8, h9, h10]
  simp [build_opts, h1, h2, h3, h4, h5, h6, h7, h8, h9, h10, hmem]

/-- C5 counterexample: the options builder does not accept the kinds replace
and replace_multi; both fail with the invalid-attribute error. -/
theorem C5_replace_not_supported :
    (build_opts "replace" none none {}).1
        = Except.error (PyErr.attributeError "invalid attribute value replace") ∧
      (build_opts "replace_multi" none none {}).1
        = Except.error (PyErr.attributeError "invalid attribute value replace_multi") :=
  ⟨rfl, rfl⟩

/-- C5 (amended): the options builder accepts exactly the ten kinds insert,
insert_multi, upsert, upsert_multi, get, get_multi, query, remove,
remove_multi and view — for each of these it returns a populated options
record (its timeout is always set) without error — and every other kind,
replace and replace_multi included, fails with the invalid-attribute error. -/
theorem C5_build_opts_supported_kinds :
    ∀ (type_ : String) (opts0 : Option Opts) (expiry : Option Expiry) (t : Timeout),
      (isOkE (build_opts type_ opts0 expiry t).1 = true ↔ type_ ∈ supportedKinds) ∧
      (∀ r, (build_opts type_ opts0 expiry t).1 = Except.ok r → r.timeout.isSome = true) ∧
      (type_ ∉ supportedKinds →
        (build_opts type_ opts0 expiry t).1
          = Except.error (PyErr.attributeError ("invalid attribute value " ++ type_))) := by
  intro type_ opts0 expiry t
  rw [build_opts_eq]
  by_cases hm : type_ ∈ supportedKinds
  · refine ⟨by simp [hm, isOkE], ?_, by simp [hm]⟩
    intro r hr
    simp only [hm, if_true] at hr
    by_cases ho : (opts0.getD {}).timeout = none
    · rcases expiry with _ | e
      · simp only [ho, if_true, Except.ok.injEq] at hr
        subst hr; rfl
      · rcases e with n | d <;>
          · simp only [ho, if_true, Except.ok.injEq] at hr
            subst hr; rfl
    · rcases expiry with _ | e
      · simp only [ho, if_false, Except.ok.injEq] at hr
        subst hr
        simpa [Option.isSome_iff_ne_none] using ho
      · rcases e with n | d <;>
          · simp only [ho, if_false, Except.ok.injEq] at hr
            subst hr
            simpa [Option.isSome_iff_ne_none] using ho
  · refine ⟨by simp [hm, isOkE], ?_, by simp [hm]⟩
    intro r hr
    simp [hm] at hr

/-- C5 witness. -/
theorem C5_build_opts_supported_kinds_witness :
    ({kind := "get", timeout := some (Timedelta.mk 5)} : OptionsRecord).timeout.isSome
      = true :=
  (C5_build_opts_supported_kinds "get" none none {}).2.1
    {kind := "get", timeout := some (Timedelta.mk 5)} rfl

/-- C6 counterexample: for the view kind with no timeout override, the
injected default is the kv value (5 with the default source), not the query
value (30) the claim requires. -/
theorem C6_view_gets_kv_timeout :
    (build_opts "view" none none {connection := 10, kv := 5, query := 30}).1
        = Except.ok {kind := "view", timeout := some (Timedelta.mk 5)} ∧
      (Timedelta.mk (5 : Int)) ≠ (Timedelta.mk (30 : Int)) :=
  ⟨rfl, by decide⟩

/-- C6 (amended): when the caller's overrides omit a timeout, the injected
default timeout is the source's query value only for the query kind; every
other supported kind, view included, gets the source's kv value. -/
theorem C6_default_timeout_choice :
    ∀ (type_ : String) (opts0 : Option Opts) (expiry : Option Expiry) (t : Timeout)
      (r : OptionsRecord),
      type_ ∈ supportedKinds →
      (opts0.getD {}).timeout = none →
      (build_opts type_ opts0 expiry t).1 = Except.ok r →
      r.timeout = some (if type_ = "query" then Timedelta.mk t.query else Timedelta.mk t.kv) := by
  intro type_ opts0 expiry t r hm ho hr
  rw [build_opts_eq] at hr
  rcases expiry with _ | e
  · simp only [hm, if_true, ho, Except.ok.injEq] at hr
    subst hr; simp [defaultTd]
  · rcases e with n | d <;>
      · simp only [hm, if_true, ho, Except.ok.injEq] at hr
        subst hr; simp [defaultTd]

/-- C6 witness. -/
theorem C6_default_timeout_choice_witness :
    ({kind := "view", timeout := some (Timedelta.mk 5)} : OptionsRecord).timeout
      = some (if ("view" : String) = "query" then Timedelta.mk ((30 : Int))
          else Timedelta.mk ((5 : Int))) :=
  C6_default_timeout_choice "view" none none {connection := 10, kv := 5, query := 30}
    {kind := "view", timeout := some (Timedelta.mk 5)}
    (by simp [supportedKinds]) rfl rfl

/-- C7 counterexample: a caller-supplied overrides map without a timeout is
mutated in place — after a get call it has gained the default timeout key. -/
theorem C7_caller_map_mutated :
    (build_opts "get" (some {}) none {}).2 = some {timeout := some (Timedelta.mk 5)} ∧
      (some {timeout := some (Timedelta.mk (5 : Int))} : Option Opts) ≠ some ({} : Opts) :=
  ⟨rfl, by decide⟩

/-- C7 (amended): for every supported kind, build_opts mutates the caller's
overrides map in place exactly when the map omits a timeout, inserting the
kind-appropriate default; a map that already carries a timeout is returned
to the caller unchanged, and a missing map stays missing. -/
theorem C7_caller_map_mutation :
    ∀ (type_ : String) (o : Opts) (expiry : Option Expiry) (t : Timeout),
      type_ ∈ supportedKinds →
      ((build_opts type_ (some o) expiry t).2
          = some (if o.timeout = none then {o with timeout := some (defaultTd type_ t)} else o)) ∧
        (o.timeout ≠ none → (build_opts type_ (some o) expiry t).2 = some o) ∧
        (build_opts type_ none expiry t).2 = none := by
  intro type_ o expiry t hm
  rw [build_opts_eq, build_opts_eq]
  refine ⟨?_, ?_, by simp [hm]⟩
  · by_cases ho : o.timeout = none <;> simp [hm, ho]
  · intro ho
    by_cases ho2 : o.timeout = none
    · exact absurd ho2 ho
    · simp [hm, ho2]

/-- C7 witness. -/
theorem C7_caller_map_mutation_witness :
    (build_opts "get" (some {timeout := some (Timedelta.mk 7)}) none {}).2
      = some {timeout := some (Timedelta.mk 7)} :=
  (C7_caller_map_mutation "get" {timeout := some (Timedelta.mk 7)} none {}
    (by simp [supportedKinds])).2.1 (by simp)

end OptionsClaims

section BuilderClaims

open PyCouch.N1ql

/-- Closed form of from_ used by several claims: for a given argument that
differs from the current session name, the current name is stored (replacing
whatever was stored before) and the session takes the new name; otherwise
both the store and the session keep their values. -/
theorem from_eq (b : Builder) (s : SessionSt) (ob os oc : Option String) :
    from_ b s ob os oc =
      ({b with sessionReset :=
        { bucket := match ob with
            | some v => if v = s.bucket then b.sessionReset.bucket else some s.bucket
            | none => b.sessionReset.bucket,
          scope := match os with
            | some v => if v = s.scope then b.sessionReset.scope else some s.scope
            | none => b.sessionReset.scope,
          collection := match oc with
            | some v => if v = s.collection then b.sessionReset.collection else some s.collection
            | none => b.sessionReset.collection }},
       { bucket := ob.getD s.bucket, scope := os.getD s.scope,
         collection := oc.getD s.collection }) := by
  rcases ob with _ | vb <;> rcases os with _ | vs <;> rcases oc with _ | vc <;>
    simp only [from_, Option.getD] <;> split_ifs <;> simp_all

/-- C2 counterexample: an operator contained in the key is not preserved —
where("age>", 5) stores the condition key "age =", not "age>" — and a null
value with an operator-free key is not rendered as IS NULL — where("col",
None) stores "col =", not "col IS NULL". -/
theorem C2_operator_not_preserved :
    (where_ Builder.init "age>" (PyVal.pint 5)).conditions
        = [("AND", "age =", PyVal.pint 5)] ∧
      ("age =" : String) ≠ "age>" ∧
      (where_ Builder.init "col" PyVal.pnone).conditions
        = [("AND", "col =", PyVal.pnone)] ∧
      ("col =" : String) ≠ "col IS NULL" :=
  ⟨by decide, by decide, by decide, by decide⟩

/-- C2 (amended): where and or_where sanitize the key by stripping all
non-word characters (back-quoting a reserved word), but the stored operator
is always " =" whatever the key or the value: the IS-NULL assignment is
unconditionally overwritten by the following conditional, and an operator
present in the key is stripped, never preserved. -/
theorem C2_where_operator_always_equals :
    ∀ (b : Builder) (key : String) (value : PyVal),
      processedKey key value = encloseReservedWord (cleanKey key) ++ " =" ∧
      (where_ b key value).conditions
        = b.conditions ++ [("AND", encloseReservedWord (cleanKey key) ++ " =", value)] ∧
      (or_where b key value).conditions
        = b.conditions ++ [("OR", encloseReservedWord (cleanKey key) ++ " =", value)] := by
  intro b key value
  have hop : processedKey key value = encloseReservedWord (cleanKey key) ++ " =" := by
    by_cases h : hasOperator key = false <;> simp [processedKey, h]
  exact ⟨hop, by simp [where_, whereCond, hop], by simp [or_where, whereCond, hop]⟩

/-- C4 counterexample: within one chain, a second from_ call overwrites the
saved original — after from_(bucket="b2") then from_(bucket="b3") on a
session whose bucket was "b1", the stored original is "b2", not "b1". -/
theorem C4_original_overwritten :
    (from_ (from_ Builder.init ⟨"b1", "_default", "_default"⟩ (some "b2") none none).1
        (from_ Builder.init ⟨"b1", "_default", "_default"⟩ (some "b2") none none).2
        (some "b3") none none).1.sessionReset.bucket = some "b2" ∧
      (some "b2" : Option String) ≠ some "b1" :=
  ⟨rfl, by decide⟩

/-- C4 (amended): on each from_ call, for each non-null argument that differs
from the session's current corresponding name, the session's current name is
recorded in sessionOverrides unconditionally — overwriting any original
already recorded for that kind in the chain — and the new name is applied to
the session; an absent or equal argument leaves both untouched. -/
theorem C4_from_records_overwriting :
    ∀ (b : Builder) (s : SessionSt) (ob os oc : Option String),
      (∀ v, ob = some v → v ≠ s.bucket →
        (from_ b s ob os oc).1.sessionReset.bucket = some s.bucket ∧
          (from_ b s ob os oc).2.bucket = v) ∧
      (∀ v, os = some v → v ≠ s.scope →
        (from_ b s ob os oc).1.sessionReset.scope = some s.scope ∧
          (from_ b s ob os oc).2.scope = v) ∧
      (∀ v, oc = some v → v ≠ s.collection →
        (from_ b s ob os oc).1.sessionReset.collection = some s.collection ∧
          (from_ b s ob os oc).2.collection = v) ∧
      ((ob = none ∨ ob = some s.bucket) →
        (from_ b s ob os oc).1.sessionReset.bucket = b.sessionReset.bucket ∧
          (from_ b s ob os oc).2.bucket = s.bucket) ∧
      ((os = none ∨ os = some s.scope) →
        (from_ b s ob os oc).1.sessionReset.scope = b.sessionReset.scope ∧
          (from_ b s ob os oc).2.scope = s.scope) ∧
      ((oc = none ∨ oc = some s.collection) →
        (from_ b s ob os oc).1.sessionReset.collection = b.sessionReset.collection ∧
          (from_ b s ob os oc).2.collection = s.collection) := by
  intro b s ob os oc
  rw [from_eq]
  refine ⟨?_, ?_, ?_, ?_, ?_, ?_⟩
  · intro v hv hne; subst hv; simp [hne]
  · intro v hv hne; subst hv; simp [hne]
  · intro v hv hne; subst hv; simp [hne]
  · rintro (h | h) <;> subst h <;> simp
  · rintro (h | h) <;> subst h <;> simp
  · rintro (h | h) <;> subst h <;> simp

/-- C4 witness. -/
theorem C4_from_records_overwriting_witness :
    (from_ {Builder.init with sessionReset := {bucket := some "b0"}}
        ⟨"b1", "_default", "_default"⟩ (some "b2") none none).1.sessionReset.bucket
        = some "b1" ∧
      (from_ {Builder.init with sessionReset := {bucket := some "b0"}}
        ⟨"b1", "_default", "_default"⟩ (some "b2") none none).2.bucket = "b2" :=
  (C4_from_records_overwriting {Builder.init with sessionReset := {bucket := some "b0"}}
    ⟨"b1", "_default", "_default"⟩ (some "b2") none none).1 "b2" rfl (by decide)

/-- C8 counterexample: an input that int() cannot parse does not always keep
the previous value silently — limit(None) after limit(10) raises TypeError,
because only ValueError is caught. -/
theorem C8_limit_none_raises :
    N1ql.limit {Builder.init with limit := some 10} PyVal.pnone
      = Except.error PyErr.typeError :=
  rfl

/-- C8 (amended): limit, offset and skip parse their argument with int();
a string that fails to parse raises ValueError, which is caught, silently
retaining the previous value (in particular limit("invalid") after limit(10)
keeps 10); a parsable string or an int stores the parsed value; but an input
whose int() conversion raises TypeError — None for instance — propagates the
error. -/
theorem C8_limit_offset_parse :
    ∀ (b : Builder) (s : String) (n : Int) (v : PyVal),
      (parseIntStr s = none → N1ql.limit b (PyVal.pstr s) = Except.ok b) ∧
      (parseIntStr s = some n →
        N1ql.limit b (PyVal.pstr s) = Except.ok {b with limit := some n}) ∧
      (N1ql.limit b (PyVal.pint n) = Except.ok {b with limit := some n}) ∧
      (N1ql.limit b PyVal.pnone = Except.error PyErr.typeError) ∧
      (parseIntStr s = none → N1ql.offset b (PyVal.pstr s) = Except.ok b) ∧
      (parseIntStr s = some n →
        N1ql.offset b (PyVal.pstr s) = Except.ok {b with offset := some n}) ∧
      (N1ql.offset b (PyVal.pint n) = Except.ok {b with offset := some n}) ∧
      (N1ql.offset b PyVal.pnone = Except.error PyErr.typeError) ∧
      (N1ql.skip b v = N1ql.offset b v) ∧
      (N1ql.limit {b with limit := some 10} (PyVal.pstr "invalid")
        = Except.ok {b with limit := some 10}) := by
  intro b s n v
  refine ⟨?_, ?_, by simp [N1ql.limit, pyInt], rfl, ?_, ?_,
    by simp [N1ql.offset, pyInt], rfl, rfl, rfl⟩
  · intro h; simp [N1ql.limit, pyInt, h]
  · intro h; simp [N1ql.limit, pyInt, h]
  · intro h; simp [N1ql.offset, pyInt, h]
  · intro h; simp [N1ql.offset, pyInt, h]

/-- C8 witness. -/
theorem C8_limit_offset_parse_witness :
    N1ql.limit Builder.init (PyVal.pstr "oops") = Except.ok Builder.init :=
  (C8_limit_offset_parse Builder.init "oops" 0 PyVal.pnone).1 rfl

end BuilderClaims

section RetryClaims

open PyCouch.Retry

/-- The retry loop never performs more invocations than iterations granted. -/
theorem retryLoop_count {ε α : Type} (retryable : Option (ε → Bool)) (f : Nat → Except ε α) :
    ∀ (n k : Nat), (retryLoop retryable f n k).2 ≤ k + n := by
  intro n
  induction n with
  | zero => intro k; simp [retryLoop]
  | succ n ih =>
      intro k
      simp only [retryLoop]
      cases hf : f k with
      | ok a => simp
      | error e =>
          cases hnr : (match retryable with | none => true | some p => !p e) with
          | true => simp [hnr]
          | false =>
              simp only [hnr, Bool.false_eq_true, if_false]
              by_cases hn : n = 0
              · subst hn; simp
              · simp only [hn, if_false]
                have := ih (k + 1)
                omega

/-- When every invocation from k on fails with a retryable error, the loop
consumes all its iterations and re-raises the error of the last attempt. -/
theorem retryLoop_all_fail {ε α : Type} (p : ε → Bool) (f : Nat → Except ε α)
    (errs : Nat → ε) :
    ∀ (n k : Nat), 1 ≤ n →
      (∀ i, i < n → f (k + i) = Except.error (errs (k + i)) ∧ p (errs (k + i)) = true) →
      retryLoop (some p) f n k = (Except.error (errs (k + n - 1)), k + n) := by
  intro n
  induction n with
  | zero => intro k h1 _; omega
  | succ n ih =>
      intro k _ hall
      have h0 := hall 0 (by omega)
      have hf : f k = Except.error (errs k) := by simpa using h0.1
      have hp : p (errs k) = true := by simpa using h0.2
      simp only [retryLoop, hf, hp, Bool.not_true, Bool.false_eq_true, if_false]
      by_cases hn : n = 0
      · subst hn; simp
      · simp only [hn, if_false]
        have hrec := ih (k + 1) (by omega) (fun i hi => by
          have e : k + 1 + i = k + (i + 1) := by omega
          rw [e]
          exact hall (i + 1) (by omega))
        rw [hrec]
        have e2 : k + 1 + n - 1 = k + (n + 1) - 1 := by omega
        have e3 : k + 1 + n = k + (n + 1) := by omega
        rw [e2, e3]

/-- C9: with attempts ≥ 1 the wrapped operation runs at most attempts times;
when every attempt raises a retryable error the operation runs no more than
attempts times and the error is ultimately re-raised; a non-retryable error —
in particular any error when no retryable kinds are configured — is re-raised
immediately after the first invocation. -/
theorem C9_retry_attempts :
    ∀ {ε α : Type} (attempts : Nat) (retryable : Option (ε → Bool))
      (f : Nat → Except ε α) (p : ε → Bool) (errs : Nat → ε) (e0 : ε),
      1 ≤ attempts →
      ((retryRun attempts retryable f).2 ≤ attempts) ∧
        ((∀ i, i < attempts → f i = Except.error (errs i) ∧ p (errs i) = true) →
          retryRun attempts (some p) f = (Except.error (errs (attempts - 1)), attempts)) ∧
        (f 0 = Except.error e0 → retryRun attempts none f = (Except.error e0, 1)) ∧
        (f 0 = Except.error e0 → p e0 = false →
          retryRun attempts (some p) f = (Except.error e0, 1)) := by
  intro ε α attempts retryable f p errs e0 hat
  obtain ⟨m, rfl⟩ : ∃ m, attempts = m + 1 := ⟨attempts - 1, by omega⟩
  refine ⟨?_, ?_, ?_, ?_⟩
  · have := retryLoop_count retryable f (m + 1) 0
    simpa [retryRun] using this
  · intro hall
    have := retryLoop_all_fail p f errs (m + 1) 0 (by omega) (fun i hi => by
      simpa using hall i hi)
    simpa [retryRun] using this
  · intro hf0
    simp [retryRun, retryLoop, hf0]
  · intro hf0 hp0
    simp [retryRun, retryLoop, hf0, hp0]

/-- C9 witness. -/
theorem C9_retry_attempts_witness :
    retryRun 3 (some (fun _ => true)) (fun _ => (Except.error 0 : Except Nat Unit))
      = (Except.error 0, 3) :=
  (C9_retry_attempts 3 (some (fun _ => true)) (fun _ => (Except.error 0 : Except Nat Unit))
    (fun _ => true) (fun _ => 0) 0 (by omega)).2.1 (fun i _ => ⟨rfl, rfl⟩)

end RetryClaims

section SessionClaims

/-- C10: a Session constructed without a bucket name always raises
BucketNotSet from connect(): the scope name (defaulting to _default) is a
string, hence not None, so connect reaches the scope setter, which requires
the bucket handle; the ready-wait is never reached — whatever its outcome
would have been — and connected stays false. -/
theorem C10_connect_without_bucket :
    ∀ (scope collection : String) (waitOk : Bool),
      (Session.connect (Session.init none scope collection) waitOk).2
          = Except.error PyErr.bucketNotSet ∧
        (Session.connect (Session.init none scope collection) waitOk).1.connected = false := by
  intro scope collection waitOk
  exact ⟨rfl, rfl⟩

end SessionClaims

section ResetClaims

open PyCouch.N1ql

/-- C1: whatever the execution outcome, rows() leaves the builder reset —
columns back to the single star, distinct cleared, conditions emptied, limit
and offset unset, every recorded session override reapplied through the
corresponding setter and the override store emptied; in particular, a fresh
chain doing from_(bucket := b2) then rows() leaves the session bucket at the
value it had before the chain. -/
theorem C1_rows_always_resets :
    ∀ {α : Type} (b : Builder) (s : SessionSt) (ex : String → List PyVal → Except PyErr α),
      (rows b s ex).2.1.columns = ["*"] ∧
        (rows b s ex).2.1.distinct = false ∧
        (rows b s ex).2.1.conditions = [] ∧
        (rows b s ex).2.1.limit = none ∧
        (rows b s ex).2.1.offset = none ∧
        (rows b s ex).2.1.sessionReset = {} ∧
        (∀ v, b.sessionReset.bucket = some v → (rows b s ex).2.2.bucket = v) ∧
        (∀ v, b.sessionReset.scope = some v → (rows b s ex).2.2.scope = v) ∧
        (∀ v, b.sessionReset.collection = some v → (rows b s ex).2.2.collection = v) ∧
        (∀ (s0 : SessionSt) (nm : String) (ex2 : String → List PyVal → Except PyErr α),
          (rows (from_ Builder.init s0 (some nm) none none).1
              (from_ Builder.init s0 (some nm) none none).2 ex2).2.2.bucket = s0.bucket) := by
  intro α b s ex
  refine ⟨rfl, rfl, rfl, rfl, rfl, rfl, ?_, ?_, ?_, ?_⟩
  · intro v hv; simp [rows, reset, hv]
  · intro v hv; simp [rows, reset, hv]
  · intro v hv; simp [rows, reset, hv]
  · intro s0 nm ex2
    rw [from_eq]
    by_cases h : nm = s0.bucket <;> simp [rows, reset, Builder.init, h]

/-- C1 witness. -/
theorem C1_rows_always_resets_witness :
    (rows {Builder.init with sessionReset := {bucket := some "orig"}}
        ⟨"cur", "_default", "_default"⟩
        (fun _ _ => (Except.error PyErr.typeError : Except PyErr Unit))).2.2.bucket
      = "orig" :=
  (C1_rows_always_resets {Builder.init with sessionReset := {bucket := some "orig"}}
    ⟨"cur", "_default", "_default"⟩
    (fun _ _ => (Except.error PyErr.typeError : Except PyErr Unit))).2.2.2.2.2.2.1
    "orig" rfl

end ResetClaims

section QueryCompileClaims

open PyCouch.N1ql

-- basic string plumbing
theorem strApp (s t : String) : (s ++ t).data = s.data ++ t.data := rfl

theorem strExt {s t : String} (h : s.data = t.data) : s = t := by
  cases s; cases t; exact congrArg String.mk h

theorem pyStrip_data (s : String) : (pyStrip s).data = stripChars s.data := rfl

theorem natStr_data (n : Nat) : (natStr n).data = natChars n := rfl

example : ("AND" : String).data = ['A', 'N', 'D'] := rfl

/-- head of the list is not whitespace (or the list is empty) -/
def headOk (l : List Char) : Bool :=
  match l with
  | [] => true
  | c :: _ => !isPySpace c

def lastOk (l : List Char) : Bool := headOk l.reverse

theorem headOk_append (a b : List Char) (ha : a ≠ []) : headOk (a ++ b) = headOk a := by
  cases a with
  | nil => exact absurd rfl ha
  | cons c cs => rfl

theorem lastOk_append (a b : List Char) (hb : b ≠ []) : lastOk (a ++ b) = lastOk b := by
  unfold lastOk
  rw [List.reverse_append, headOk_append]
  simpa using hb

theorem digitCh_not_space (m : Nat) : isPySpace (digitCh m) = false := by
  unfold digitCh
  have hk : m % 10 < 10 := Nat.mod_lt _ (by omega)
  set k := m % 10 with hdef
  interval_cases k <;> decide

theorem natChars_ends (n : Nat) : ∃ l m, natChars n = l ++ [digitCh m] := by
  by_cases h : n < 10
  · exact ⟨[], n, by simp [natChars, natCharsAux, h]⟩
  · exact ⟨natCharsAux n (n / 10), n % 10, by simp [natChars, natCharsAux, h]⟩

theorem natChars_ne (n : Nat) : natChars n ≠ [] := by
  obtain ⟨l, m, h⟩ := natChars_ends n
  simp [h]

theorem lastOk_natChars (n : Nat) : lastOk (natChars n) = true := by
  obtain ⟨l, m, h⟩ := natChars_ends n
  rw [h]
  unfold lastOk
  rw [List.reverse_append]
  simp [headOk, digitCh_not_space]

theorem dropWs_headOk (l : List Char) (h : headOk l = true) : dropWs l = l := by
  cases l with
  | nil => rfl
  | cons c cs =>
      simp only [headOk, Bool.not_eq_true'] at h
      simp [dropWs, h]

theorem stripChars_self (L : List Char) (h1 : headOk L = true) (h2 : lastOk L = true) :
    stripChars L = L := by
  unfold stripChars
  rw [dropWs_headOk L h1, dropWs_headOk L.reverse h2, List.reverse_reverse]

theorem stripChars_cons_space (L : List Char) : stripChars (' ' :: L) = stripChars L := by
  unfold stripChars
  simp [dropWs, isPySpace]

theorem dataEmptyStr : ("" : String).data = [] := rfl

theorem dataSpaceStr : (" " : String).data = [' '] := rfl

theorem dataDollarStr : (" $" : String).data = [' ', '$'] := rfl

theorem strAppendEmpty (s : String) : s ++ "" = s :=
  strExt (by rw [strApp, dataEmptyStr, List.append_nil])

theorem strAppendSpaceNe (x : String) : x ++ " " ≠ "" := by
  intro h
  have h2 := congrArg String.data h
  simp [strApp, dataSpaceStr, dataEmptyStr] at h2

theorem pyStrip_self (w : String) (h1 : headOk w.data = true) (h2 : lastOk w.data = true) :
    pyStrip w = w :=
  strExt (by rw [pyStrip_data, stripChars_self _ h1 h2])

theorem pyStrip_keyword_part (T pfx k : String) (idx : Nat)
    (hTne : T.data ≠ []) (hTok : headOk T.data = true) :
    pyStrip (T ++ " " ++ pfx ++ k ++ " $" ++ natStr idx)
      = T ++ " " ++ pfx ++ k ++ " $" ++ natStr idx := by
  apply pyStrip_self
  · have w4 : (T ++ " " ++ pfx ++ k ++ " $").data ≠ [] := by
      simp [strApp, dataSpaceStr, dataDollarStr]
    have w3 : (T ++ " " ++ pfx ++ k).data ≠ [] := by
      simp [strApp, dataSpaceStr]
    have w2 : (T ++ " " ++ pfx).data ≠ [] := by
      simp [strApp, dataSpaceStr]
    have w1 : (T ++ " ").data ≠ [] := by
      simp [strApp, dataSpaceStr]
    rw [strApp, natStr_data, headOk_append _ _ w4, strApp, headOk_append _ _ w3,
        strApp, headOk_append _ _ w2, strApp, headOk_append _ _ w1, strApp,
        headOk_append _ _ hTne]
    exact hTok
  · rw [strApp, natStr_data, lastOk_append _ _ (natChars_ne idx)]
    exact lastOk_natChars idx

theorem pyStrip_first_part (pfx k : String) (idx : Nat)
    (hok : headOk pfx.data = true) (hne : pfx.data ≠ []) :
    pyStrip ("" ++ " " ++ pfx ++ k ++ " $" ++ natStr idx)
      = pfx ++ k ++ " $" ++ natStr idx := by
  apply strExt
  rw [pyStrip_data]
  have hdat : ("" ++ " " ++ pfx ++ k ++ " $" ++ natStr idx).data
      = ' ' :: ((pfx ++ k ++ " $" ++ natStr idx).data) := by
    simp [strApp, natStr_data, dataSpaceStr, dataDollarStr, dataEmptyStr, List.append_assoc]
  rw [hdat, stripChars_cons_space]
  apply stripChars_self
  · have w3 : (pfx ++ k ++ " $").data ≠ [] := by
      simp [strApp, dataDollarStr]
    have w2 : (pfx ++ k).data ≠ [] := by
      simp [strApp, hne]
    rw [strApp, natStr_data, headOk_append _ _ w3, strApp, headOk_append _ _ w2,
        strApp, headOk_append _ _ hne]
    exact hok
  · rw [strApp, natStr_data, lastOk_append _ _ (natChars_ne idx)]
    exact lastOk_natChars idx

theorem genWhereParts_acc (pfx : String) :
    ∀ (conds : List Cond) (idx : Nat) (acc : String), acc ≠ "" →
      (∀ c ∈ conds, c.1 = "AND" ∨ c.1 = "OR") →
      genWhereParts pfx conds idx acc = acc ++ specRestWhere pfx conds idx := by
  intro conds
  induction conds with
  | nil =>
      intro idx acc hacc _
      simp [genWhereParts, specRestWhere, strAppendEmpty]
  | cons c rest ih =>
      obtain ⟨t, k, v⟩ := c
      intro idx acc hacc hts
      have ht : t = "AND" ∨ t = "OR" := by simpa using hts (t, k, v) (by simp)
      have hlen : acc.length ≠ 0 := by
        intro h0
        apply hacc
        apply strExt
        have : acc.data.length = 0 := h0
        simpa [dataEmptyStr] using List.length_eq_zero.mp this
      have hrest : ∀ c ∈ rest, c.1 = "AND" ∨ c.1 = "OR" := by
        intro c hc; exact hts c (by simp [hc])
      simp only [genWhereParts]
      rw [if_pos hlen]
      rcases ht with ht | ht <;> subst ht
      · have hup : pyUpper "AND" = "AND" := rfl
        rw [hup, pyStrip_keyword_part "AND" pfx k idx (by decide) (by decide)]
        rw [ih (idx + 1) _ (strAppendSpaceNe _) hrest]
        apply strExt
        simp [strApp, specRestWhere, List.append_assoc]
      · have hup : pyUpper "OR" = "OR" := rfl
        rw [hup, pyStrip_keyword_part "OR" pfx k idx (by decide) (by decide)]
        rw [ih (idx + 1) _ (strAppendSpaceNe _) hrest]
        apply strExt
        simp [strApp, specRestWhere, List.append_assoc]

theorem genWhere_eq_specWhere (pfx : String) (hok : headOk pfx.data = true)
    (hne : pfx.data ≠ []) (conds : List Cond)
    (hts : ∀ c ∈ conds, c.1 = "AND" ∨ c.1 = "OR") :
    genWhere pfx conds = specWhere pfx conds := by
  cases conds with
  | nil => rfl
  | cons c rest =>
      obtain ⟨t, k, v⟩ := c
      have hrest : ∀ c ∈ rest, c.1 = "AND" ∨ c.1 = "OR" := by
        intro c hc; exact hts c (by simp [hc])
      simp only [genWhere, List.isEmpty_cons, Bool.false_eq_true, if_false]
      simp only [genWhereParts]
      rw [if_neg (by decide : ¬(("" : String).length ≠ 0))]
      rw [pyStrip_first_part pfx k 1 hok hne]
      rw [genWhereParts_acc pfx rest 2 _ (strAppendSpaceNe _) hrest]
      apply strExt
      simp [strApp, specWhere, specRestWhere, dataEmptyStr, List.append_assoc]

theorem dataMk (l : List Char) : (String.mk l).data = l := rfl

theorem dataDotStr : ("." : String).data = ['.'] := rfl

theorem applyChain_conditions :
    ∀ (calls : List (Bool × String × PyVal)) (b : Builder),
      (applyChain calls b).conditions
        = b.conditions ++ calls.map (fun c =>
            ((if c.1 then "OR" else "AND"), processedKey c.2.1 c.2.2, c.2.2)) := by
  intro calls
  induction calls with
  | nil => intro b; simp [applyChain]
  | cons c cs ih =>
      intro b
      obtain ⟨o, k, v⟩ := c
      have step : applyChain ((o, k, v) :: cs) b
          = applyChain cs (if o then or_where b k v else where_ b k v) := rfl
      rw [step]
      cases o
      · rw [if_neg (by simp), ih]
        simp [where_, whereCond, List.append_assoc]
      · rw [if_pos rfl, ih]
        simp [or_where, whereCond, List.append_assoc]

theorem pfx_of_bucket (b : String) (h : headOk b.data = true) :
    headOk ((take1 b ++ ".").data) = true ∧ (take1 b ++ ".").data ≠ [] := by
  cases hb : b.data with
  | nil =>
      constructor
      · rw [strApp, dataDotStr]
        simp only [take1, hb, dataMk, List.take_nil, List.nil_append]
        decide
      · rw [strApp, dataDotStr]
        simp [take1, hb, dataMk]
  | cons c cs =>
      rw [hb] at h
      constructor
      · rw [strApp, dataDotStr]
        simp only [take1, hb, dataMk, List.take_cons, List.take_zero, List.cons_append]
        simpa [headOk] using h
      · rw [strApp, dataDotStr]
        simp [take1, hb, dataMk]

/-- C3: where / or_where chains store their conditions in call order as
(joinType, renderedKey, value) tuples — AND for where, OR for or_where; the
compiled positional parameters are the condition values in order, numbered
from 1; the generated WHERE clause joins the rendered conditions in order
with their join keywords, omitting the keyword of the first condition; and
where("type=", "restaurant") followed by rows() compiles the statement
SELECT * FROM test t WHERE t.type = $1 (which contains WHERE t.type = $1,
t being the first character of the bucket name) with positional parameters
["restaurant"]. -/
theorem C3_where_chain_compiles :
    ∀ (s : SessionSt) (calls : List (Bool × String × PyVal)),
      headOk s.bucket.data = true →
      calls ≠ [] →
      ((applyChain calls Builder.init).conditions
          = calls.map (fun c =>
              ((if c.1 then "OR" else "AND"), processedKey c.2.1 c.2.2, c.2.2))) ∧
        ((compile (applyChain calls Builder.init) s).2 = calls.map (fun c => c.2.2)) ∧
        (genWhere (take1 s.bucket ++ ".") (applyChain calls Builder.init).conditions
            = specWhere (take1 s.bucket ++ ".") (applyChain calls Builder.init).conditions) ∧
        ((compile (where_ Builder.init "type=" (PyVal.pstr "restaurant"))
            ⟨"test", "_default", "_default"⟩).1
            = "SELECT * FROM test t WHERE t.type = $1") ∧
        (strHas (compile (where_ Builder.init "type=" (PyVal.pstr "restaurant"))
            ⟨"test", "_default", "_default"⟩).1 "WHERE t.type = $1" = true) ∧
        ((compile (where_ Builder.init "type=" (PyVal.pstr "restaurant"))
            ⟨"test", "_default", "_default"⟩).2 = [PyVal.pstr "restaurant"]) := by
  intro s calls hbucket hne
  have hcond : (applyChain calls Builder.init).conditions
      = calls.map (fun c =>
          ((if c.1 then "OR" else "AND"), processedKey c.2.1 c.2.2, c.2.2)) := by
    rw [applyChain_conditions]
    simp [Builder.init]
  have hts : ∀ c ∈ (applyChain calls Builder.init).conditions,
      c.1 = "AND" ∨ c.1 = "OR" := by
    rw [hcond]
    intro c hc
    obtain ⟨a, ha, rfl⟩ := List.mem_map.mp hc
    cases h : a.1 <;> simp [h]
  obtain ⟨hpok, hpne⟩ := pfx_of_bucket s.bucket hbucket
  refine ⟨hcond, ?_, genWhere_eq_specWhere _ hpok hpne _ hts, by decide, by decide, by decide⟩
  have hp : (compile (applyChain calls Builder.init) s).2
      = (applyChain calls Builder.init).conditions.map (fun c => c.2.2) := rfl
  rw [hp, hcond, List.map_map]
  rfl


/-- C3 witness. -/
theorem C3_where_chain_compiles_witness :
    (applyChain [(false, "type=", PyVal.pstr "restaurant")] Builder.init).conditions
      = [((false : Bool), "type=", PyVal.pstr "restaurant")].map (fun c =>
          ((if c.1 then "OR" else "AND"), processedKey c.2.1 c.2.2, c.2.2)) :=
  (C3_where_chain_compiles ⟨"test", "_default", "_default"⟩
    [(false, "type=", PyVal.pstr "restaurant")] (by decide) (by decide)).1

end QueryCompileClaims

